import Mathlib

/-!
Verification of the multi-topic decouple sink
(`pkg/broker/ingress/multi_topic_decouple_sink.go`).

The sink routes events to pubsub topics, one per broker.  It keeps a cache
(`topics : map[types.NamespacedName]*pubsub.Topic`) guarded by an RWMutex,
consults a routing table (`brokerConfig config.ReadonlyTargets`) on every
call, and classifies lookup failures with the sentinels `ErrNotFound`,
`ErrNotReady`, `ErrIncomplete`.

The shallow embedding below mirrors the Go functions
`getTopicIDForBroker`, `getExistingTopic`, `updateTopicForBroker`,
`getTopicForBroker` and `Send` one by one.  Each function additionally
returns a trace of the observable operations it performed (cache reads,
handle creation via `pubsub.Client.Topic`, `Topic.Stop`, map installs,
publishes, log calls), so that ordering and frame properties can be
stated.  The pubsub client is modelled as a fresh-handle counter: each
`Topic(id)` call yields a handle carrying the id it was opened against and
a unique creation tag, so handle *instances* can be compared.
-/

/-- Embeds `k8s.io/apimachinery/pkg/types.NamespacedName`: the cache key. -/
structure NamespacedName where
  ns : String
  name : String
deriving DecidableEq, Repr

/-- The `broker.String()` rendering used by the `%q` format verb of the error wraps. -/
def NamespacedName.str (b : NamespacedName) : String :=
  b.ns ++ "/" ++ b.name

/-- Embeds `config.State` from the broker targets proto; the code only ever
compares against `config.State_READY`. -/
inductive ConfigState where
  | unknown
  | ready
deriving DecidableEq, Repr

/-- The decouple queue of a broker config (`brokerConfig.DecoupleQueue`);
the field the code reads is its `Topic` string. -/
structure Queue where
  topic : String
deriving DecidableEq, Repr

/-- A broker's entry in the routing table (`config.ReadonlyTargets`):
its state and its (possibly nil) decouple queue. -/
structure BrokerCfg where
  state : ConfigState
  decoupleQueue : Option Queue
deriving DecidableEq, Repr

/-- The routing table, an association list keyed by broker identity:
`GetBroker(ns, name)` is lookup. -/
abbrev RoutingTable := List (NamespacedName × BrokerCfg)

/-- Embeds `GetBroker`: first match in the table. -/
def RoutingTable.getBroker : RoutingTable → NamespacedName → Option BrokerCfg
  | [], _ => none
  | (k, v) :: rest, b => if k = b then some v else RoutingTable.getBroker rest b

/-- Embeds a `*pubsub.Topic` handle: the topic id it was opened against
(`topic.ID()`) plus a creation tag distinguishing handle instances
returned by distinct `pubsub.Client.Topic` calls. -/
structure Topic where
  id : String
  tag : Nat
deriving DecidableEq, Repr

/-- The mutable state of the sink: the `topics` cache map and the pubsub
client's fresh-handle counter. -/
structure SinkState where
  topics : List (NamespacedName × Topic)
  nextTag : Nat
deriving DecidableEq, Repr

/-- The map read `m.topics[broker]`. -/
def lookupTopics : List (NamespacedName × Topic) → NamespacedName → Option Topic
  | [], _ => none
  | (k, v) :: rest, b => if k = b then some v else lookupTopics rest b

/-- The map write `m.topics[broker] = topic` (replace or append). -/
def insertTopics : List (NamespacedName × Topic) → NamespacedName → Topic →
    List (NamespacedName × Topic)
  | [], b, t => [(b, t)]
  | (k, v) :: rest, b, t =>
      if k = b then (b, t) :: rest else (k, v) :: insertTopics rest b t

/-- The error sentinels of the ingress package wrapped by
`getTopicIDForBroker`. -/
inductive Sentinel where
  | errNotFound
  | errNotReady
  | errIncomplete
deriving DecidableEq, Repr

/-- A Go error as it can cross the sink's boundary.  `wrapped msg s` is
`fmt.Errorf(..., %w sentinel)`.  The remaining kinds exist in the spec's
taxonomy or come from the external collaborators (encoder, transport);
`handleOpen` is the taxonomy's HandleOpenError kind. -/
inductive GoErr where
  | wrapped (msg : String) (s : Sentinel)
  | handleOpen (msg : String)
  | encodeErr (msg : String)
  | publishFail (msg : String)
deriving DecidableEq, Repr

/-- Log severities used by the sink (`logger.Warn/Debug/Error`). -/
inductive Severity where
  | warn
  | debug
  | error
deriving DecidableEq, Repr

/-- Observable operations, recorded in program order. -/
inductive Ev where
  /-- a read of the `topics` map -/
  | cacheRead (b : NamespacedName)
  /-- `pubsub.Client.Topic(id)` returning the handle with this tag -/
  | openTopic (id : String) (tag : Nat)
  /-- `Topic.Stop()` on a handle -/
  | stopTopic (t : Topic)
  /-- `m.topics[b] = t` -/
  | installTopic (b : NamespacedName) (t : Topic)
  /-- `topic.Publish(ctx, msg)` on a handle -/
  | publishTo (t : Topic)
  /-- a log call at the given severity -/
  | log (s : Severity)
deriving DecidableEq, Repr

deriving instance DecidableEq for Except

/-- Result of `getTopicIDForBroker`: the topic id or an error, plus the
log trace. -/
structure TidResult where
  res : Except GoErr String
  trace : List Ev
deriving DecidableEq, Repr

/--
Embeds `getTopicIDForBroker` from the source:

```
brokerConfig, ok := m.brokerConfig.GetBroker(broker.Namespace, broker.Name)
if !ok { logger.Warn(...); return "", fmt.Errorf("%q: %w", broker, ErrNotFound) }
if brokerConfig.State != config.State_READY {
  logger.Debug(...); return "", fmt.Errorf("%q: %w", broker, ErrNotReady) }
if brokerConfig.DecoupleQueue == nil || brokerConfig.DecoupleQueue.Topic == "" {
  logger.Error(...); return "", fmt.Errorf("decouple queue of %q: %w", broker, ErrIncomplete) }
return brokerConfig.DecoupleQueue.Topic, nil
```
-/
def getTopicIDForBroker (tbl : RoutingTable) (broker : NamespacedName) : TidResult :=
  match tbl.getBroker broker with
  | none =>
      { res := .error (.wrapped broker.str .errNotFound)
        trace := [.log .warn] }
  | some cfg =>
      if cfg.state ≠ ConfigState.ready then
        { res := .error (.wrapped broker.str .errNotReady)
          trace := [.log .debug] }
      else
        match cfg.decoupleQueue with
        | none =>
            { res := .error (.wrapped ("decouple queue of " ++ broker.str) .errIncomplete)
              trace := [.log .error] }
        | some q =>
            if q.topic = "" then
              { res := .error (.wrapped ("decouple queue of " ++ broker.str) .errIncomplete)
                trace := [.log .error] }
            else
              { res := .ok q.topic, trace := [] }

/-- Result of the lookup stage: the handle or an error, the sink state
after the call, and the trace. -/
structure LookupResult where
  res : Except GoErr Topic
  st : SinkState
  trace : List Ev
deriving DecidableEq, Repr

/--
Embeds `updateTopicForBroker` from the source (runs entirely under the exclusive
`topicsMut.Lock()`):

```
topicID, err := m.getTopicIDForBroker(broker)
if err != nil { return nil, err }
if topic, ok := m.topics[broker]; ok {
  if topic.ID() == topicID { return topic, nil }
  m.topics[broker].Stop()
}
topic := m.pubsub.Topic(topicID)
m.topics[broker] = topic
return topic, nil
```
-/
def updateTopicForBroker (tbl : RoutingTable) (st : SinkState)
    (broker : NamespacedName) : LookupResult :=
  let r := getTopicIDForBroker tbl broker
  match r.res with
  | .error e => { res := .error e, st := st, trace := r.trace }
  | .ok topicID =>
      match lookupTopics st.topics broker with
      | some topic =>
          if topic.id = topicID then
            { res := .ok topic, st := st, trace := r.trace ++ [.cacheRead broker] }
          else
            let newTopic : Topic := { id := topicID, tag := st.nextTag }
            { res := .ok newTopic
              st := { topics := insertTopics st.topics broker newTopic
                      nextTag := st.nextTag + 1 }
              trace := r.trace ++ [.cacheRead broker, .stopTopic topic,
                                   .openTopic topicID st.nextTag,
                                   .installTopic broker newTopic] }
      | none =>
          let newTopic : Topic := { id := topicID, tag := st.nextTag }
          { res := .ok newTopic
            st := { topics := insertTopics st.topics broker newTopic
                    nextTag := st.nextTag + 1 }
            trace := r.trace ++ [.cacheRead broker,
                                 .openTopic topicID st.nextTag,
                                 .installTopic broker newTopic] }

/-- Embeds `getExistingTopic`: the fast-path read of the map under the
shared lock. -/
def getExistingTopic (st : SinkState) (broker : NamespacedName) :
    Option Topic × List Ev :=
  (lookupTopics st.topics broker, [.cacheRead broker])

/--
Embeds `getTopicForBroker` from the source:

```
topicID, err := m.getTopicIDForBroker(broker)
if err != nil { return nil, err }
if topic, ok := m.getExistingTopic(broker); ok {
  if topic.ID() == topicID { return topic, nil }
}
return m.updateTopicForBroker(broker)
```
-/
def getTopicForBroker (tbl : RoutingTable) (st : SinkState)
    (broker : NamespacedName) : LookupResult :=
  let r := getTopicIDForBroker tbl broker
  match r.res with
  | .error e => { res := .error e, st := st, trace := r.trace }
  | .ok topicID =>
      let fast := getExistingTopic st broker
      match fast.1 with
      | some topic =>
          if topic.id = topicID then
            { res := .ok topic, st := st, trace := r.trace ++ fast.2 }
          else
            let u := updateTopicForBroker tbl st broker
            { res := u.res, st := u.st, trace := r.trace ++ fast.2 ++ u.trace }
      | none =>
          let u := updateTopicForBroker tbl st broker
          { res := u.res, st := u.st, trace := r.trace ++ fast.2 ++ u.trace }

/-- Result of `Send`: `none` is the nil (success) `protocol.Result`. -/
structure SendResult where
  res : Option GoErr
  st : SinkState
  trace : List Ev
deriving DecidableEq, Repr

/--
Embeds `Send` from the source.  The external collaborators are passed as
parameters: `encodeRes` is the outcome of `WritePubSubMessage` (the event
encoder), `publishRes t` the outcome of `topic.Publish(ctx, msg).Get(ctx)`
on handle `t` (`none` = acknowledged; a `some` also covers context
cancellation before acknowledgment):

```
topic, err := m.getTopicForBroker(...)
if err != nil { return err }
if err := cepubsub.WritePubSubMessage(...); err != nil { return err }
_, err = topic.Publish(ctx, msg).Get(ctx)
return err
```
-/
def Send (tbl : RoutingTable) (st : SinkState) (broker : NamespacedName)
    (encodeRes : Option GoErr) (publishRes : Topic → Option GoErr) : SendResult :=
  let l := getTopicForBroker tbl st broker
  match l.res with
  | .error e => { res := some e, st := l.st, trace := l.trace }
  | .ok topic =>
      match encodeRes with
      | some e => { res := some e, st := l.st, trace := l.trace }
      | none =>
          { res := publishRes topic, st := l.st
            trace := l.trace ++ [.publishTo topic] }

/-! ### Trace observations -/

/-- Is the event a handle creation (`pubsub.Client.Topic`)? -/
def isOpenEv : Ev → Bool
  | .openTopic _ _ => true
  | _ => false

/-- Is the event a `Topic.Stop`? -/
def isStopEv : Ev → Bool
  | .stopTopic _ => true
  | _ => false

/-- Is the event an install into the `topics` map? -/
def isInstallEv : Ev → Bool
  | .installTopic _ _ => true
  | _ => false

/-- Is the event a read of the `topics` map? -/
def isCacheReadEv : Ev → Bool
  | .cacheRead _ => true
  | _ => false

/-- Is the event a publish? -/
def isPublishEv : Ev → Bool
  | .publishTo _ => true
  | _ => false

/-- Number of handle creations in a trace. -/
def countOpens (evs : List Ev) : Nat := (evs.filter isOpenEv).length

/-- Number of `Stop` calls in a trace. -/
def countStops (evs : List Ev) : Nat := (evs.filter isStopEv).length

/-- Number of map installs in a trace. -/
def countInstalls (evs : List Ev) : Nat := (evs.filter isInstallEv).length

/-- Index of the first event satisfying `p`, if any. -/
def firstIdx (p : Ev → Bool) : List Ev → Option Nat
  | [] => none
  | e :: rest => if p e then some 0 else (firstIdx p rest).map (· + 1)

/-- Holds (as `true`) iff, whenever the trace contains both an install and
a stop, the first install occurs strictly before the first stop. -/
def installPrecedesStop (evs : List Ev) : Bool :=
  match firstIdx isInstallEv evs, firstIdx isStopEv evs with
  | some i, some j => decide (i < j)
  | _, _ => true

/-- Holds (as `true`) iff, whenever the trace contains both a stop and an
install, the first stop occurs strictly before the first install. -/
def stopPrecedesInstall (evs : List Ev) : Bool :=
  match firstIdx isStopEv evs, firstIdx isInstallEv evs with
  | some i, some j => decide (i < j)
  | _, _ => true

/-- Number of publish calls in a trace. -/
def countPublishes (evs : List Ev) : Nat := (evs.filter isPublishEv).length

/-! ### Helper lemmas -/

theorem lookupTopics_insertTopics_self (m : List (NamespacedName × Topic))
    (b : NamespacedName) (t : Topic) :
    lookupTopics (insertTopics m b t) b = some t := by
  induction m with
  | nil => simp [insertTopics, lookupTopics]
  | cons kv rest ih =>
      obtain ⟨k, v⟩ := kv
      by_cases h : k = b
      · simp [insertTopics, lookupTopics, h]
      · simp [insertTopics, lookupTopics, h, ih]

/-- The trace of `getTopicIDForBroker` consists of at most one log event:
the function touches neither the cache nor any handle. -/
theorem getTopicIDForBroker_trace_logsOnly (tbl : RoutingTable) (broker : NamespacedName) :
    (getTopicIDForBroker tbl broker).trace = [] ∨
    ∃ s, (getTopicIDForBroker tbl broker).trace = [Ev.log s] := by
  unfold getTopicIDForBroker
  cases tbl.getBroker broker with
  | none => exact Or.inr ⟨_, rfl⟩
  | some cfg =>
      by_cases hs : cfg.state = ConfigState.ready
      · cases hq : cfg.decoupleQueue with
        | none => simp [hs, hq]
        | some q =>
            by_cases ht : q.topic = ""
            · simp [hs, hq, ht]
            · simp [hs, hq, ht]
      · simp [hs]

theorem countOpens_append (a b : List Ev) :
    countOpens (a ++ b) = countOpens a + countOpens b := by
  simp [countOpens, List.filter_append]

theorem countOpens_tid (tbl : RoutingTable) (broker : NamespacedName) :
    countOpens (getTopicIDForBroker tbl broker).trace = 0 := by
  rcases getTopicIDForBroker_trace_logsOnly tbl broker with h | ⟨s, h⟩ <;>
    simp [h, countOpens, isOpenEv]

/-- Behaviour of the slow path when the route fails to resolve under the
lock: the error is propagated and the state is untouched. -/
theorem updateTopicForBroker_err (tbl : RoutingTable) (st : SinkState)
    (broker : NamespacedName) (e : GoErr)
    (h : (getTopicIDForBroker tbl broker).res = .error e) :
    updateTopicForBroker tbl st broker =
      { res := .error e, st := st, trace := (getTopicIDForBroker tbl broker).trace } := by
  simp [updateTopicForBroker, h]

/-- Behaviour of the slow path when the double-check finds a matching
entry: it is returned unchanged. -/
theorem updateTopicForBroker_hit (tbl : RoutingTable) (st : SinkState)
    (broker : NamespacedName) (tid : String) (topic : Topic)
    (htid : (getTopicIDForBroker tbl broker).res = .ok tid)
    (hl : lookupTopics st.topics broker = some topic)
    (hid : topic.id = tid) :
    updateTopicForBroker tbl st broker =
      { res := .ok topic, st := st
        trace := (getTopicIDForBroker tbl broker).trace ++ [.cacheRead broker] } := by
  simp [updateTopicForBroker, htid, hl, hid]

/-- Behaviour of the slow path on a replacement: the old handle is
stopped, a fresh handle is opened and installed — in that order. -/
theorem updateTopicForBroker_replace (tbl : RoutingTable) (st : SinkState)
    (broker : NamespacedName) (tid : String) (topic : Topic)
    (htid : (getTopicIDForBroker tbl broker).res = .ok tid)
    (hl : lookupTopics st.topics broker = some topic)
    (hid : topic.id ≠ tid) :
    updateTopicForBroker tbl st broker =
      { res := .ok { id := tid, tag := st.nextTag }
        st := { topics := insertTopics st.topics broker { id := tid, tag := st.nextTag }
                nextTag := st.nextTag + 1 }
        trace := (getTopicIDForBroker tbl broker).trace ++
          [.cacheRead broker, .stopTopic topic, .openTopic tid st.nextTag,
           .installTopic broker { id := tid, tag := st.nextTag }] } := by
  simp [updateTopicForBroker, htid, hl, hid]

/-- Behaviour of the slow path on a first-time miss: a fresh handle is
opened and installed, nothing is stopped. -/
theorem updateTopicForBroker_fresh (tbl : RoutingTable) (st : SinkState)
    (broker : NamespacedName) (tid : String)
    (htid : (getTopicIDForBroker tbl broker).res = .ok tid)
    (hl : lookupTopics st.topics broker = none) :
    updateTopicForBroker tbl st broker =
      { res := .ok { id := tid, tag := st.nextTag }
        st := { topics := insertTopics st.topics broker { id := tid, tag := st.nextTag }
                nextTag := st.nextTag + 1 }
        trace := (getTopicIDForBroker tbl broker).trace ++
          [.cacheRead broker, .openTopic tid st.nextTag,
           .installTopic broker { id := tid, tag := st.nextTag }] } := by
  simp [updateTopicForBroker, htid, hl]

/-- The lookup stage propagates a route-resolution error without touching
the state. -/
theorem getTopicForBroker_err (tbl : RoutingTable) (st : SinkState)
    (broker : NamespacedName) (e : GoErr)
    (h : (getTopicIDForBroker tbl broker).res = .error e) :
    getTopicForBroker tbl st broker =
      { res := .error e, st := st, trace := (getTopicIDForBroker tbl broker).trace } := by
  simp [getTopicForBroker, h]

/-- The fast path: a cached handle bound to the freshly observed topic id
is returned with no mutation. -/
theorem getTopicForBroker_hit (tbl : RoutingTable) (st : SinkState)
    (broker : NamespacedName) (tid : String) (topic : Topic)
    (htid : (getTopicIDForBroker tbl broker).res = .ok tid)
    (hl : lookupTopics st.topics broker = some topic)
    (hid : topic.id = tid) :
    getTopicForBroker tbl st broker =
      { res := .ok topic, st := st
        trace := (getTopicIDForBroker tbl broker).trace ++ [.cacheRead broker] } := by
  simp [getTopicForBroker, getExistingTopic, htid, hl, hid]

/-- When the route resolves but no cached handle is bound to its topic id,
the lookup stage opens exactly one fresh handle and installs it. -/
theorem getTopicForBroker_creates (tbl : RoutingTable) (st : SinkState)
    (broker : NamespacedName) (tid : String)
    (htid : (getTopicIDForBroker tbl broker).res = .ok tid)
    (hfresh : ∀ t, lookupTopics st.topics broker = some t → t.id ≠ tid) :
    (getTopicForBroker tbl st broker).res = .ok { id := tid, tag := st.nextTag } ∧
    (getTopicForBroker tbl st broker).st =
      { topics := insertTopics st.topics broker { id := tid, tag := st.nextTag }
        nextTag := st.nextTag + 1 } ∧
    countOpens (getTopicForBroker tbl st broker).trace = 1 := by
  cases hl : lookupTopics st.topics broker with
  | none =>
      have hu := updateTopicForBroker_fresh tbl st broker tid htid hl
      have h0 := countOpens_tid tbl broker
      unfold countOpens at h0
      simp only [getTopicForBroker, getExistingTopic, htid, hl, hu]
      refine ⟨trivial, trivial, ?_⟩
      simp [countOpens_append, countOpens, isOpenEv]
      omega
  | some topic =>
      have hid : topic.id ≠ tid := hfresh topic hl
      have hu := updateTopicForBroker_replace tbl st broker tid topic htid hl hid
      have h0 := countOpens_tid tbl broker
      unfold countOpens at h0
      simp only [getTopicForBroker, getExistingTopic, htid, hl, hu, if_neg hid]
      refine ⟨trivial, trivial, ?_⟩
      simp [countOpens_append, countOpens, isOpenEv]
      omega

/-- Whenever the lookup stage succeeds, the returned handle is the one
installed in the map for that broker afterwards. -/
theorem getTopicForBroker_ok_installed (tbl : RoutingTable) (st : SinkState)
    (broker : NamespacedName) (t : Topic)
    (h : (getTopicForBroker tbl st broker).res = .ok t) :
    lookupTopics (getTopicForBroker tbl st broker).st.topics broker = some t := by
  cases htid : (getTopicIDForBroker tbl broker).res with
  | error e =>
      rw [getTopicForBroker_err tbl st broker e htid] at h
      simp at h
  | ok tid =>
      by_cases hfresh : ∀ u, lookupTopics st.topics broker = some u → u.id ≠ tid
      · obtain ⟨hres, hst, -⟩ := getTopicForBroker_creates tbl st broker tid htid hfresh
        rw [hres] at h
        rw [hst]
        cases h
        exact lookupTopics_insertTopics_self st.topics broker _
      · push_neg at hfresh
        obtain ⟨u, hl, hid⟩ := hfresh
        rw [getTopicForBroker_hit tbl st broker tid u htid hl hid] at h ⊢
        cases h
        exact hl

/-! ### Concrete fixtures used by witnesses and counterexamples -/

/-- A broker identity. -/
def exBroker : NamespacedName := { ns := "ns1", name := "b1" }

/-- A handle bound to topic id `t1`. -/
def exOld : Topic := { id := "t1", tag := 0 }

/-- A routing table whose entry for `exBroker` is ready with topic `t1`. -/
def exTblT1 : RoutingTable :=
  [(exBroker, { state := .ready, decoupleQueue := some { topic := "t1" } })]

/-- A routing table whose entry for `exBroker` is ready with topic `t2`
(the broker's topic has been rotated away from `t1`). -/
def exTblT2 : RoutingTable :=
  [(exBroker, { state := .ready, decoupleQueue := some { topic := "t2" } })]

/-- A routing table where `exBroker` is present but not ready. -/
def exTblUnready : RoutingTable :=
  [(exBroker, { state := .unknown, decoupleQueue := some { topic := "t1" } })]

/-- A routing table where `exBroker` is ready but its decouple queue is
nil. -/
def exTblNoQueue : RoutingTable :=
  [(exBroker, { state := .ready, decoupleQueue := none })]

/-- A sink state caching `exOld` for `exBroker`. -/
def exStOld : SinkState := { topics := [(exBroker, exOld)], nextTag := 1 }

/-- The empty sink state. -/
def exStEmpty : SinkState := { topics := [], nextTag := 0 }

/-! ### Claims -/

/-- Claim C1, counterexample.  The claim states that on a replacement the
new entry is installed in the map before the old handle is stopped.  In
this concrete replacement — cached handle bound to `t1`, route freshly
re-read as `t2` — the slow path emits `Stop` on the old handle *before*
the install of the new entry, so the install does not precede the close. -/
theorem C1_counterexample :
    (lookupTopics exStOld.topics exBroker = some exOld ∧
     (getTopicIDForBroker exTblT2 exBroker).res = .ok "t2" ∧
     exOld.id ≠ "t2") ∧
    installPrecedesStop (updateTopicForBroker exTblT2 exStOld exBroker).trace = false := by
  decide

/-- Claim C1 (amended): in the slow path, when an existing cache entry is
replaced because its bound topic id differs from the freshly re-read
route, the old handle's `Stop` precedes the install of the new entry —
the reverse of the spec's stated order — with exactly one stop and one
install, all within the same exclusive critical section (the single
`updateTopicForBroker` call holds the write lock throughout). -/
theorem C1_close_old_precedes_install (tbl : RoutingTable) (st : SinkState)
    (broker : NamespacedName) (tid : String) (old : Topic)
    (htid : (getTopicIDForBroker tbl broker).res = .ok tid)
    (hl : lookupTopics st.topics broker = some old)
    (hne : old.id ≠ tid) :
    stopPrecedesInstall (updateTopicForBroker tbl st broker).trace = true ∧
    countStops (updateTopicForBroker tbl st broker).trace = 1 ∧
    countInstalls (updateTopicForBroker tbl st broker).trace = 1 := by
  rw [updateTopicForBroker_replace tbl st broker tid old htid hl hne]
  rcases getTopicIDForBroker_trace_logsOnly tbl broker with h | ⟨s, h⟩ <;>
    simp [h, stopPrecedesInstall, firstIdx, isStopEv, isInstallEv,
          countStops, countInstalls]

/-- Witness for the amended claim C1, on the rotation fixture. -/
theorem C1_close_old_precedes_install_witness :
    ((getTopicIDForBroker exTblT2 exBroker).res = .ok "t2" ∧
     lookupTopics exStOld.topics exBroker = some exOld ∧
     exOld.id ≠ "t2") ∧
    (stopPrecedesInstall (updateTopicForBroker exTblT2 exStOld exBroker).trace = true ∧
     countStops (updateTopicForBroker exTblT2 exStOld exBroker).trace = 1 ∧
     countInstalls (updateTopicForBroker exTblT2 exStOld exBroker).trace = 1) :=
  ⟨⟨by decide, by decide, by decide⟩,
   C1_close_old_precedes_install exTblT2 exStOld exBroker "t2" exOld
     (by decide) (by decide) (by decide)⟩

/-- Claim C2: double-check under the write lock.  If, after taking the
exclusive lock and re-reading the route, an entry already exists whose
handle's topic id equals the re-read topic id, that entry's handle is
returned, the cache is unchanged, and no new handle is opened. -/
theorem C2_double_check_no_duplicate (tbl : RoutingTable) (st : SinkState)
    (broker : NamespacedName) (tid : String) (topic : Topic)
    (htid : (getTopicIDForBroker tbl broker).res = .ok tid)
    (hl : lookupTopics st.topics broker = some topic)
    (hid : topic.id = tid) :
    (updateTopicForBroker tbl st broker).res = .ok topic ∧
    (updateTopicForBroker tbl st broker).st = st ∧
    countOpens (updateTopicForBroker tbl st broker).trace = 0 := by
  rw [updateTopicForBroker_hit tbl st broker tid topic htid hl hid]
  refine ⟨rfl, rfl, ?_⟩
  rw [countOpens_append, countOpens_tid]
  simp [countOpens, isOpenEv]

/-- Witness for claim C2: the cached `t1` handle survives a slow-path
call whose re-read route still says `t1`. -/
theorem C2_double_check_no_duplicate_witness :
    ((getTopicIDForBroker exTblT1 exBroker).res = .ok "t1" ∧
     lookupTopics exStOld.topics exBroker = some exOld ∧
     exOld.id = "t1") ∧
    ((updateTopicForBroker exTblT1 exStOld exBroker).res = .ok exOld ∧
     (updateTopicForBroker exTblT1 exStOld exBroker).st = exStOld ∧
     countOpens (updateTopicForBroker exTblT1 exStOld exBroker).trace = 0) :=
  ⟨⟨by decide, by decide, by decide⟩,
   C2_double_check_no_duplicate exTblT1 exStOld exBroker "t1" exOld
     (by decide) (by decide) (by decide)⟩

/-- Claim C3: atomicity of the cache on error.  If resolving the route
under the write lock fails, the slow path returns that error, the cache
map (indeed the whole sink state) is exactly as before, and the trace
contains no install and no stop — no partial update is visible. -/
theorem C3_route_error_leaves_cache_untouched (tbl : RoutingTable) (st : SinkState)
    (broker : NamespacedName) (e : GoErr)
    (h : (getTopicIDForBroker tbl broker).res = .error e) :
    (updateTopicForBroker tbl st broker).res = .error e ∧
    (updateTopicForBroker tbl st broker).st = st ∧
    countInstalls (updateTopicForBroker tbl st broker).trace = 0 ∧
    countStops (updateTopicForBroker tbl st broker).trace = 0 := by
  rw [updateTopicForBroker_err tbl st broker e h]
  refine ⟨rfl, rfl, ?_, ?_⟩ <;>
    rcases getTopicIDForBroker_trace_logsOnly tbl broker with ht | ⟨s, ht⟩ <;>
      simp [ht, countInstalls, countStops, isInstallEv, isStopEv]

/-- Witness for claim C3: a not-found route under the lock leaves the
cached `t1` entry in place. -/
theorem C3_route_error_leaves_cache_untouched_witness :
    ((getTopicIDForBroker [] exBroker).res =
       .error (.wrapped exBroker.str .errNotFound)) ∧
    ((updateTopicForBroker [] exStOld exBroker).res =
       .error (.wrapped exBroker.str .errNotFound) ∧
     (updateTopicForBroker [] exStOld exBroker).st = exStOld ∧
     countInstalls (updateTopicForBroker [] exStOld exBroker).trace = 0 ∧
     countStops (updateTopicForBroker [] exStOld exBroker).trace = 0) :=
  ⟨by decide,
   C3_route_error_leaves_cache_untouched [] exStOld exBroker
     (.wrapped exBroker.str .errNotFound) (by decide)⟩

/-- Claim C4: idempotent cache hit.  Starting from a state where no cached
handle is bound to the freshly observed topic id (the first-time scenario
of the spec's testable property), two consecutive `getTopicForBroker`
calls for the same broker under an unchanged, ready routing table return
the identical handle instance both times, and the handle factory
(`pubsub.Client.Topic`) is invoked exactly once across the two calls. -/
theorem C4_idempotent_cache_hit (tbl : RoutingTable) (st : SinkState)
    (broker : NamespacedName) (tid : String)
    (htid : (getTopicIDForBroker tbl broker).res = .ok tid)
    (hfresh : ∀ t, lookupTopics st.topics broker = some t → t.id ≠ tid) :
    ∃ t : Topic,
      (getTopicForBroker tbl st broker).res = .ok t ∧
      (getTopicForBroker tbl (getTopicForBroker tbl st broker).st broker).res = .ok t ∧
      countOpens ((getTopicForBroker tbl st broker).trace ++
        (getTopicForBroker tbl (getTopicForBroker tbl st broker).st broker).trace) = 1 := by
  obtain ⟨hres, hst, hcnt⟩ := getTopicForBroker_creates tbl st broker tid htid hfresh
  have hl2 : lookupTopics (getTopicForBroker tbl st broker).st.topics broker =
      some { id := tid, tag := st.nextTag } := by
    rw [hst]
    exact lookupTopics_insertTopics_self st.topics broker _
  have hhit := getTopicForBroker_hit tbl (getTopicForBroker tbl st broker).st broker tid
    { id := tid, tag := st.nextTag } htid hl2 rfl
  refine ⟨{ id := tid, tag := st.nextTag }, hres, ?_, ?_⟩
  · rw [hhit]
  · rw [countOpens_append, hcnt, hhit]
    rw [countOpens_append, countOpens_tid]
    simp [countOpens, isOpenEv]

/-- Witness for claim C4: a first lookup of `exBroker` against the ready
`t1` table from the empty cache, followed by a second lookup. -/
theorem C4_idempotent_cache_hit_witness :
    ((getTopicIDForBroker exTblT1 exBroker).res = .ok "t1" ∧
     (∀ t, lookupTopics exStEmpty.topics exBroker = some t → t.id ≠ "t1")) ∧
    (∃ t : Topic,
      (getTopicForBroker exTblT1 exStEmpty exBroker).res = .ok t ∧
      (getTopicForBroker exTblT1 (getTopicForBroker exTblT1 exStEmpty exBroker).st
        exBroker).res = .ok t ∧
      countOpens ((getTopicForBroker exTblT1 exStEmpty exBroker).trace ++
        (getTopicForBroker exTblT1 (getTopicForBroker exTblT1 exStEmpty exBroker).st
          exBroker).trace) = 1) :=
  ⟨⟨by decide, by decide⟩,
   C4_idempotent_cache_hit exTblT1 exStEmpty exBroker "t1" (by decide) (by decide)⟩

/-- Route resolution for a present, ready broker whose decouple queue is
nil or whose topic id is empty: the incomplete error, logged at error
severity. -/
theorem getTopicIDForBroker_incomplete (tbl : RoutingTable) (broker : NamespacedName)
    (cfg : BrokerCfg)
    (hc : tbl.getBroker broker = some cfg)
    (hready : cfg.state = ConfigState.ready)
    (hq : cfg.decoupleQueue = none ∨ ∃ q, cfg.decoupleQueue = some q ∧ q.topic = "") :
    getTopicIDForBroker tbl broker =
      { res := .error (.wrapped ("decouple queue of " ++ broker.str) .errIncomplete)
        trace := [.log .error] } := by
  rcases hq with hq | ⟨q, hq, ht⟩
  · simp [getTopicIDForBroker, hc, hready, hq]
  · simp [getTopicIDForBroker, hc, hready, hq, ht]

/-- Claim C5: incomplete classification.  A broker present and ready but
with a missing decouple queue or empty topic id makes `Send` fail with an
error wrapping `ErrIncomplete`; the condition is logged at error
severity, and the handle factory is never called (the whole trace is the
single error log). -/
theorem C5_incomplete_classification (tbl : RoutingTable) (st : SinkState)
    (broker : NamespacedName) (cfg : BrokerCfg)
    (encodeRes : Option GoErr) (publishRes : Topic → Option GoErr)
    (hc : tbl.getBroker broker = some cfg)
    (hready : cfg.state = ConfigState.ready)
    (hq : cfg.decoupleQueue = none ∨ ∃ q, cfg.decoupleQueue = some q ∧ q.topic = "") :
    (Send tbl st broker encodeRes publishRes).res =
      some (.wrapped ("decouple queue of " ++ broker.str) .errIncomplete) ∧
    Ev.log .error ∈ (Send tbl st broker encodeRes publishRes).trace ∧
    countOpens (Send tbl st broker encodeRes publishRes).trace = 0 ∧
    (Send tbl st broker encodeRes publishRes).st = st := by
  have htid := getTopicIDForBroker_incomplete tbl broker cfg hc hready hq
  have he := getTopicForBroker_err tbl st broker
    (.wrapped ("decouple queue of " ++ broker.str) .errIncomplete) (by rw [htid])
  simp [Send, he, htid, countOpens, isOpenEv]

/-- Witness for claim C5: a ready broker with a nil decouple queue. -/
theorem C5_incomplete_classification_witness :
    (exTblNoQueue.getBroker exBroker =
       some { state := .ready, decoupleQueue := none } ∧
     ConfigState.ready = ConfigState.ready ∧
     ((none : Option Queue) = none ∨
       ∃ q, (none : Option Queue) = some q ∧ q.topic = "")) ∧
    ((Send exTblNoQueue exStEmpty exBroker none (fun _ => none)).res =
       some (.wrapped ("decouple queue of " ++ exBroker.str) .errIncomplete) ∧
     Ev.log .error ∈ (Send exTblNoQueue exStEmpty exBroker none (fun _ => none)).trace ∧
     countOpens (Send exTblNoQueue exStEmpty exBroker none (fun _ => none)).trace = 0 ∧
     (Send exTblNoQueue exStEmpty exBroker none (fun _ => none)).st = exStEmpty) :=
  ⟨⟨by decide, rfl, Or.inl rfl⟩,
   C5_incomplete_classification exTblNoQueue exStEmpty exBroker
     { state := .ready, decoupleQueue := none } none (fun _ => none)
     (by decide) rfl (Or.inl rfl)⟩

/-- Claim C6: not-found classification.  For a broker identity absent
from the routing table, `Send` fails with an error wrapping `ErrNotFound`
(the embedding is total, so no panic is possible, and the error is never
a different kind), the sink state is untouched, and the whole trace is a
single warning log — the cache is neither consulted nor modified. -/
theorem C6_not_found_classification (tbl : RoutingTable) (st : SinkState)
    (broker : NamespacedName)
    (encodeRes : Option GoErr) (publishRes : Topic → Option GoErr)
    (h : tbl.getBroker broker = none) :
    (Send tbl st broker encodeRes publishRes).res =
      some (.wrapped broker.str .errNotFound) ∧
    (Send tbl st broker encodeRes publishRes).st = st ∧
    (Send tbl st broker encodeRes publishRes).trace = [Ev.log .warn] := by
  have htid : getTopicIDForBroker tbl broker =
      { res := .error (.wrapped broker.str .errNotFound), trace := [.log .warn] } := by
    simp [getTopicIDForBroker, h]
  have he := getTopicForBroker_err tbl st broker
    (.wrapped broker.str .errNotFound) (by rw [htid])
  simp [Send, he, htid]

/-- Witness for claim C6: the empty routing table. -/
theorem C6_not_found_classification_witness :
    (RoutingTable.getBroker [] exBroker = none) ∧
    ((Send [] exStEmpty exBroker none (fun _ => none)).res =
       some (.wrapped exBroker.str .errNotFound) ∧
     (Send [] exStEmpty exBroker none (fun _ => none)).st = exStEmpty ∧
     (Send [] exStEmpty exBroker none (fun _ => none)).trace = [Ev.log .warn]) :=
  ⟨rfl, C6_not_found_classification [] exStEmpty exBroker none (fun _ => none) rfl⟩

/-- Claim C7: not-ready classification.  For a broker present in the
routing table with a state other than ready — regardless of its decouple
queue, hence even with a non-empty topic id — `Send` fails with an error
wrapping `ErrNotReady`, the state is untouched, and the whole trace is a
single debug log: no handle is returned or opened. -/
theorem C7_not_ready_classification (tbl : RoutingTable) (st : SinkState)
    (broker : NamespacedName) (cfg : BrokerCfg)
    (encodeRes : Option GoErr) (publishRes : Topic → Option GoErr)
    (hc : tbl.getBroker broker = some cfg)
    (hnr : cfg.state ≠ ConfigState.ready) :
    (Send tbl st broker encodeRes publishRes).res =
      some (.wrapped broker.str .errNotReady) ∧
    (Send tbl st broker encodeRes publishRes).st = st ∧
    (Send tbl st broker encodeRes publishRes).trace = [Ev.log .debug] := by
  have htid : getTopicIDForBroker tbl broker =
      { res := .error (.wrapped broker.str .errNotReady), trace := [.log .debug] } := by
    simp [getTopicIDForBroker, hc, hnr]
  have he := getTopicForBroker_err tbl st broker
    (.wrapped broker.str .errNotReady) (by rw [htid])
  simp [Send, he, htid]

/-- Witness for claim C7: an unready broker with a non-empty topic id. -/
theorem C7_not_ready_classification_witness :
    (exTblUnready.getBroker exBroker =
       some { state := .unknown, decoupleQueue := some { topic := "t1" } } ∧
     ConfigState.unknown ≠ ConfigState.ready) ∧
    ((Send exTblUnready exStEmpty exBroker none (fun _ => none)).res =
       some (.wrapped exBroker.str .errNotReady) ∧
     (Send exTblUnready exStEmpty exBroker none (fun _ => none)).st = exStEmpty ∧
     (Send exTblUnready exStEmpty exBroker none (fun _ => none)).trace =
       [Ev.log .debug]) :=
  ⟨⟨by decide, by decide⟩,
   C7_not_ready_classification exTblUnready exStEmpty exBroker
     { state := .unknown, decoupleQueue := some { topic := "t1" } }
     none (fun _ => none) (by decide) (by decide)⟩

/-- Claim C8: failure after a successful lookup does not evict cache
state.  If the lookup stage returns a handle but encoding fails, or
encoding succeeds and the publish (including a context cancellation
surfaced by `Get`) fails, `Send` returns that error, performs no further
state change after the lookup, and the obtained handle is still the one
installed in the map for the broker. -/
theorem C8_failure_does_not_evict (tbl : RoutingTable) (st : SinkState)
    (broker : NamespacedName) (t : Topic) (e : GoErr)
    (encodeRes : Option GoErr) (publishRes : Topic → Option GoErr)
    (hok : (getTopicForBroker tbl st broker).res = .ok t)
    (hfail : encodeRes = some e ∨ (encodeRes = none ∧ publishRes t = some e)) :
    (Send tbl st broker encodeRes publishRes).res = some e ∧
    (Send tbl st broker encodeRes publishRes).st = (getTopicForBroker tbl st broker).st ∧
    lookupTopics (Send tbl st broker encodeRes publishRes).st.topics broker = some t := by
  have hin := getTopicForBroker_ok_installed tbl st broker t hok
  rcases hfail with hf | ⟨hn, hp⟩
  · simp [Send, hok, hf, hin]
  · simp [Send, hok, hn, hp, hin]

/-- Witness for claim C8: a publish failure against the freshly created
`t1` handle leaves it cached. -/
theorem C8_failure_does_not_evict_witness :
    ((getTopicForBroker exTblT1 exStEmpty exBroker).res =
       .ok { id := "t1", tag := 0 } ∧
     ((none : Option GoErr) = some (.publishFail "ctx canceled") ∨
       ((none : Option GoErr) = none ∧
        (fun _ : Topic => some (GoErr.publishFail "ctx canceled"))
          { id := "t1", tag := 0 } = some (.publishFail "ctx canceled")))) ∧
    ((Send exTblT1 exStEmpty exBroker none
        (fun _ => some (.publishFail "ctx canceled"))).res =
       some (.publishFail "ctx canceled") ∧
     (Send exTblT1 exStEmpty exBroker none
        (fun _ => some (.publishFail "ctx canceled"))).st =
       (getTopicForBroker exTblT1 exStEmpty exBroker).st ∧
     lookupTopics (Send exTblT1 exStEmpty exBroker none
        (fun _ => some (.publishFail "ctx canceled"))).st.topics exBroker =
       some { id := "t1", tag := 0 }) :=
  ⟨⟨by decide, Or.inr ⟨rfl, rfl⟩⟩,
   C8_failure_does_not_evict exTblT1 exStEmpty exBroker { id := "t1", tag := 0 }
     (.publishFail "ctx canceled") none (fun _ => some (.publishFail "ctx canceled"))
     (by decide) (Or.inr ⟨rfl, rfl⟩)⟩

/-- Claim C9: the routing table is consulted before the cache.  When a
broker has vanished from the routing table while a handle for it is still
cached, `Send` fails with the not-found wrap, never publishes (to the
stale handle or any other), leaves the state untouched, and the stale
entry simply remains in the map. -/
theorem C9_stale_entry_unused (tbl : RoutingTable) (st : SinkState)
    (broker : NamespacedName) (t : Topic)
    (encodeRes : Option GoErr) (publishRes : Topic → Option GoErr)
    (habs : tbl.getBroker broker = none)
    (hc : lookupTopics st.topics broker = some t) :
    (Send tbl st broker encodeRes publishRes).res =
      some (.wrapped broker.str .errNotFound) ∧
    (Send tbl st broker encodeRes publishRes).st = st ∧
    countPublishes (Send tbl st broker encodeRes publishRes).trace = 0 ∧
    lookupTopics (Send tbl st broker encodeRes publishRes).st.topics broker = some t := by
  have htid : getTopicIDForBroker tbl broker =
      { res := .error (.wrapped broker.str .errNotFound), trace := [.log .warn] } := by
    simp [getTopicIDForBroker, habs]
  have he := getTopicForBroker_err tbl st broker
    (.wrapped broker.str .errNotFound) (by rw [htid])
  simp [Send, he, htid, countPublishes, isPublishEv, hc]

/-- Witness for claim C9: `exBroker` vanished from the table while its
`t1` handle is cached. -/
theorem C9_stale_entry_unused_witness :
    (RoutingTable.getBroker [] exBroker = none ∧
     lookupTopics exStOld.topics exBroker = some exOld) ∧
    ((Send [] exStOld exBroker none (fun _ => none)).res =
       some (.wrapped exBroker.str .errNotFound) ∧
     (Send [] exStOld exBroker none (fun _ => none)).st = exStOld ∧
     countPublishes (Send [] exStOld exBroker none (fun _ => none)).trace = 0 ∧
     lookupTopics (Send [] exStOld exBroker none (fun _ => none)).st.topics exBroker =
       some exOld) :=
  ⟨⟨rfl, by decide⟩,
   C9_stale_entry_unused [] exStOld exBroker exOld none (fun _ => none)
     rfl (by decide)⟩

/-- Every error produced by `getTopicIDForBroker` is a sentinel wrap. -/
theorem getTopicIDForBroker_err_wrapped (tbl : RoutingTable)
    (broker : NamespacedName) (e : GoErr)
    (h : (getTopicIDForBroker tbl broker).res = .error e) :
    ∃ m s, e = GoErr.wrapped m s := by
  cases hb : tbl.getBroker broker with
  | none =>
      simp [getTopicIDForBroker, hb] at h
      exact ⟨_, _, h.symm⟩
  | some cfg =>
      by_cases hs : cfg.state = ConfigState.ready
      · cases hq : cfg.decoupleQueue with
        | none =>
            simp [getTopicIDForBroker, hb, hs, hq] at h
            exact ⟨_, _, h.symm⟩
        | some q =>
            by_cases ht : q.topic = ""
            · simp [getTopicIDForBroker, hb, hs, hq, ht] at h
              exact ⟨_, _, h.symm⟩
            · simp [getTopicIDForBroker, hb, hs, hq, ht] at h
      · simp [getTopicIDForBroker, hb, hs] at h
        exact ⟨_, _, h.symm⟩

/-- Claim C10: opening a handle cannot fail (`pubsub.Client.Topic` has no
error path — the embedding's handle construction is total), so every
error returned by the lookup stage is a wrap of exactly one of the three
sentinels; in particular the taxonomy's HandleOpenError kind is
unreachable. -/
theorem C10_lookup_errors_wrap_sentinels (tbl : RoutingTable) (st : SinkState)
    (broker : NamespacedName) (e : GoErr)
    (h : (getTopicForBroker tbl st broker).res = .error e) :
    (∃ m s, e = GoErr.wrapped m s) ∧ ∀ m, e ≠ GoErr.handleOpen m := by
  cases htid : (getTopicIDForBroker tbl broker).res with
  | error e0 =>
      rw [getTopicForBroker_err tbl st broker e0 htid] at h
      simp at h
      subst h
      obtain ⟨m, s, rfl⟩ := getTopicIDForBroker_err_wrapped tbl broker e0 htid
      exact ⟨⟨m, s, rfl⟩, by intro m' hco; cases hco⟩
  | ok tid =>
      exfalso
      by_cases hfresh : ∀ u, lookupTopics st.topics broker = some u → u.id ≠ tid
      · obtain ⟨hres, -, -⟩ := getTopicForBroker_creates tbl st broker tid htid hfresh
        rw [hres] at h
        simp at h
      · push_neg at hfresh
        obtain ⟨u, hl, hid⟩ := hfresh
        rw [getTopicForBroker_hit tbl st broker tid u htid hl hid] at h
        simp at h

/-- Witness for claim C10: the not-found error from the empty table is a
sentinel wrap. -/
theorem C10_lookup_errors_wrap_sentinels_witness :
    ((getTopicForBroker [] exStEmpty exBroker).res =
       .error (.wrapped exBroker.str .errNotFound)) ∧
    ((∃ m s, GoErr.wrapped exBroker.str .errNotFound = GoErr.wrapped m s) ∧
     ∀ m, GoErr.wrapped exBroker.str .errNotFound ≠ GoErr.handleOpen m) :=
  ⟨by decide,
   C10_lookup_errors_wrap_sentinels [] exStEmpty exBroker
     (.wrapped exBroker.str .errNotFound) (by decide)⟩
